import Mathlib

/-!  Shallow embedding of the gameplay core of QuantumSalvage (src/gameplay.rs):
ship profiles, damage resolution (`Spacecraft.collide`), bullet collision handling
(`collide_bullets`), the shield-recharge state machine, the capture/decision flow,
the border hazard and the enemy-wave spawner, together with theorems about the
behaviour of these definitions.  Rust `f32` times, speeds and distances are
modelled as exact rationals; machine integers (`i32`, `u32`) as `Int`/`Nat`;
Bevy entity ids as `Nat`.  -/

/-- The six ship type variants (enum ShipType in gameplay.rs). -/
inductive ShipType
  | Ship1
  | Ship2
  | Ship3
  | Ship4
  | Ship5
  | Ship6
deriving DecidableEq

/-- pub const TURN_SPEED: f32 = 0.5 -/
def TURN_SPEED : Rat := 1/2

/-- pub const ACCELERATION_SPEED: f32 = 0.005 -/
def ACCELERATION_SPEED : Rat := 5/1000

/-- pub const BULLET_SPEED: f32 = 0.015 -/
def BULLET_SPEED : Rat := 15/1000

/-- pub const MAX_VELOCITY: f32 = 0.05 -/
def MAX_VELOCITY : Rat := 5/100

/-- Static per-type stats (struct ShipProfile).  Durations are in seconds. -/
structure ShipProfile where
  max_health : Int
  max_velocity : Rat
  shield_recharge_time : Rat
  gun_reload_time : Rat
  shots : Int
  base_bullet_velocity : Rat
  relative_scale : Rat
deriving DecidableEq

/-- ShipProfile::from_type, transcribed from gameplay.rs. -/
def ShipProfile.from_type : ShipType → ShipProfile
  | ShipType.Ship1 =>
      { max_health := 2, max_velocity := MAX_VELOCITY, shield_recharge_time := 4,
        gun_reload_time := 1, shots := 1, base_bullet_velocity := BULLET_SPEED,
        relative_scale := 1 }
  | ShipType.Ship2 =>
      { max_health := 3, max_velocity := MAX_VELOCITY * (13/10), shield_recharge_time := 3,
        gun_reload_time := 13/10, shots := 2, base_bullet_velocity := BULLET_SPEED * (9/10),
        relative_scale := 12/10 }
  | ShipType.Ship3 =>
      { max_health := 5, max_velocity := MAX_VELOCITY * (17/10), shield_recharge_time := 3,
        gun_reload_time := 6/10, shots := 1, base_bullet_velocity := BULLET_SPEED * (13/10),
        relative_scale := 14/10 }
  | ShipType.Ship4 =>
      { max_health := 6, max_velocity := MAX_VELOCITY * (14/10), shield_recharge_time := 2,
        gun_reload_time := 1, shots := 3, base_bullet_velocity := BULLET_SPEED,
        relative_scale := 16/10 }
  | ShipType.Ship5 =>
      { max_health := 7, max_velocity := MAX_VELOCITY * (23/10), shield_recharge_time := 2,
        gun_reload_time := 14/10, shots := 1, base_bullet_velocity := BULLET_SPEED * 3,
        relative_scale := 18/10 }
  | ShipType.Ship6 =>
      { max_health := 10, max_velocity := MAX_VELOCITY * 2, shield_recharge_time := 1,
        gun_reload_time := 4/10, shots := 3, base_bullet_velocity := BULLET_SPEED * 2,
        relative_scale := 24/10 }

/-- A Bevy countdown timer in TimerMode::Once, over simulated seconds.
`justFin` records `just_finished()` (whether the most recent `tick` call completed
the timer). -/
structure STimer where
  duration : Rat
  elapsed : Rat
  justFin : Bool
deriving DecidableEq

/-- Timer::finished for a Once timer: elapsed has reached the duration. -/
def STimer.finished (t : STimer) : Bool := decide (t.duration ≤ t.elapsed)

/-- Timer::tick for a Once timer: elapsed advances by the frame delta and is
clamped at the duration; `just_finished` holds exactly on the tick that first
reaches the duration. -/
def STimer.tick (t : STimer) (delta : Rat) : STimer :=
  if t.duration ≤ t.elapsed then { t with justFin := false }
  else if t.duration ≤ t.elapsed + delta then ⟨t.duration, t.duration, true⟩
  else ⟨t.duration, t.elapsed + delta, false⟩

/-- Timer::reset. -/
def STimer.reset (t : STimer) : STimer := ⟨t.duration, 0, false⟩

/-- Timer::from_seconds(d, TimerMode::Once). -/
def STimer.fromSeconds (d : Rat) : STimer := ⟨d, 0, false⟩

/-- Resource PlayerScore: cumulative score and the survival stopwatch
(seconds elapsed).  The periodic +5 score timer is not needed by the
collision/decision systems modelled here. -/
structure PlayerScore where
  score : Nat
  survived : Rat
deriving DecidableEq

/-- Mutable per-ship runtime state (struct Spacecraft). -/
structure Spacecraft where
  position : Rat × Rat
  heading : Rat
  delta_rotation : Rat
  velocity : Rat
  health : Int
  weapon_cooldown : STimer
  shield_recharge : STimer
  ship_type : ShipType
deriving DecidableEq

/-- Spacecraft::from_template: fresh ship with full health; the shield-recharge
timer is created and immediately set_elapsed to its full duration (so the shield
is ready at spawn). -/
def Spacecraft.from_template (t : ShipType) (pos : Rat × Rat) : Spacecraft :=
  let p := ShipProfile.from_type t
  { position := pos, heading := 0, delta_rotation := 0, velocity := 0,
    health := p.max_health,
    weapon_cooldown := ⟨p.gun_reload_time, 0, false⟩,
    shield_recharge := ⟨p.shield_recharge_time, p.shield_recharge_time, false⟩,
    ship_type := t }

/-- Result of Spacecraft::collide: the mutated craft and score, plus the
returned bool (whether the ship became decision-pending). -/
structure CollideResult where
  craft : Spacecraft
  score : PlayerScore
  pending : Bool
deriving DecidableEq

/-- Spacecraft::collide(damage, reduce_to_one, score): if the resulting health
would be ≤ 0 and reduce_to_one holds, health is clamped to 1, +15 score and
`true` is returned; otherwise health decreases by damage, +5 score when
reduce_to_one holds, and `false` is returned. -/
def Spacecraft.collide (s : Spacecraft) (damage : Int) (reduce_to_one : Bool)
    (sc : PlayerScore) : CollideResult :=
  if decide (s.health - damage ≤ 0) && reduce_to_one then
    ⟨{ s with health := 1 }, { sc with score := sc.score + 15 }, true⟩
  else
    ⟨{ s with health := s.health - damage },
      if reduce_to_one then { sc with score := sc.score + 5 } else sc,
      false⟩

/-- Non-reducible damage never clamps: the craft just loses `damage` health and
the score is untouched. -/
theorem collide_false_spec (s : Spacecraft) (damage : Int) (sc : PlayerScore) :
    (s.collide damage false sc).craft = { s with health := s.health - damage } ∧
    (s.collide damage false sc).score = sc ∧
    (s.collide damage false sc).pending = false := by
  simp [Spacecraft.collide]

/-- C1: for every ship and every damage amount d, `collide(d, reduce_to_one := true)`
with `health_before - d ≤ 0` sets health to exactly 1, adds 15 to the player
score and returns the decision-pending signal `true`; the ship is never killed
directly by such a hit. -/
theorem c1_collide_reduce_to_one_clamps (s : Spacecraft) (d : Int) (sc : PlayerScore)
    (h : s.health - d ≤ 0) :
    (s.collide d true sc).craft.health = 1 ∧
    (s.collide d true sc).score.score = sc.score + 15 ∧
    (s.collide d true sc).pending = true := by
  have hd : s.health ≤ d := by omega
  refine ⟨?_, ?_, ?_⟩ <;> simp [Spacecraft.collide, hd]

/-- Witness for C1 at a concrete input: a freshly spawned Ship1 (2 health) hit
for 5 damage with reduce_to_one. -/
theorem c1_collide_reduce_to_one_clamps_witness :
    ((Spacecraft.from_template ShipType.Ship1 (0, 0)).collide 5 true ⟨0, 0⟩).craft.health = 1 ∧
    ((Spacecraft.from_template ShipType.Ship1 (0, 0)).collide 5 true ⟨0, 0⟩).score.score = 0 + 15 ∧
    ((Spacecraft.from_template ShipType.Ship1 (0, 0)).collide 5 true ⟨0, 0⟩).pending = true :=
  c1_collide_reduce_to_one_clamps (Spacecraft.from_template ShipType.Ship1 (0, 0)) 5 ⟨0, 0⟩
    (by decide)

/-- Per-shot runtime state (struct Bullet): heading, position, scalar velocity,
the shooter's entity id, the self-immunity timer and the player-faction flag. -/
structure Bullet where
  heading : Rat
  position : Rat × Rat
  velocity : Rat
  shooter : Nat
  immunity_time : STimer
  player_shot : Bool
deriving DecidableEq

/-- The self-immunity timer given to every bullet in spawn_bullet:
Timer::from_seconds(0.25, TimerMode::Once). -/
def spawn_bullet_immunity : STimer := STimer.fromSeconds (1/4)

/-- Discrete collision events from the physics collaborator
(bevy_rapier CollisionEvent), naming a pair of entity ids. -/
inductive CollisionEvent
  | started (a b : Nat)
  | stopped (a b : Nat)
deriving DecidableEq

/-- The state read and written by the collide_bullets system: the ships query
(in query order, excluding decision-pending ships), the bullets query, the
score resource, the ids of other live entities (commands.get_entity succeeds
on them), and the effects accumulated through Commands: despawns and the
ExplosionMarker / pending-decision marker insertions. -/
structure CollideWorld where
  ships : List (Nat × Spacecraft)
  bullets : List (Nat × Bullet)
  score : PlayerScore
  otherLive : List Nat
  despawned : List Nat
  explosionMarked : List Nat
  pendingMarked : List Nat
deriving DecidableEq

/-- commands.get_entity(e) succeeds: e is a queried ship, a bullet, or some
other still-live entity. -/
def isLiveEntity (w : CollideWorld) (e : Nat) : Bool :=
  w.ships.any (fun p => p.1 == e) || w.bullets.any (fun p => p.1 == e) ||
    w.otherLive.contains e

/-- The a_shotby_p / b_shotby_p loop: entity e is a bullet of the player
faction. -/
def shot_by_player (bullets : List (Nat × Bullet)) (e : Nat) : Bool :=
  bullets.any (fun p => p.1 == e && p.2.player_shot)

/-- The immunity-suppression loop: some live bullet was shot by `ship` and its
self-immunity timer has not finished. -/
def has_immune_bullet (bullets : List (Nat × Bullet)) (ship : Nat) : Bool :=
  bullets.any (fun p => p.2.shooter == ship && !p.2.immunity_time.finished)

/-- The `for (entity, mut ship) in ships.iter_mut()` loop with its
`if &entity == a ... else if &entity == b` chain: the first queried ship whose
id is one of the colliding pair decides which branch runs. -/
def find_matched (ships : List (Nat × Spacecraft)) (a b : Nat) :
    Option (Nat × Spacecraft) :=
  ships.find? (fun p => p.1 == a || p.1 == b)

/-- Write back a mutation of the queried ship with the given id. -/
def update_ship (ships : List (Nat × Spacecraft)) (id : Nat) (s : Spacecraft) :
    List (Nat × Spacecraft) :=
  ships.map (fun p => if p.1 == id then (id, s) else p)

/-- The survival-gated damage block applied to the matched ship: only after more
than 3 survived seconds, insert ExplosionMarker, apply collide(1, flag) and, when
it returns true, insert the pending-decision marker. -/
def gated_hit (w : CollideWorld) (target : Nat) (ship : Spacecraft) (flag : Bool) :
    CollideWorld :=
  if 3 < w.score.survived then
    let r := ship.collide 1 flag w.score
    { w with ships := update_ship w.ships target r.craft,
             score := r.score,
             explosionMarked := target :: w.explosionMarked,
             pendingMarked :=
               if r.pending then target :: w.pendingMarked else w.pendingMarked }
  else w

/-- Shared shape of the two second halves: look the id `b` up among the queried
ships; a found ship takes an ungated collide(1, flag) hit, otherwise the entity
`despawn_target` is despawned (the bullet-despawn path). -/
def second_half_core (w : CollideWorld) (b : Nat) (flag : Bool)
    (despawn_target : Nat) : CollideWorld :=
  match w.ships.find? (fun p => p.1 == b) with
  | some p =>
      let r := p.2.collide 1 flag w.score
      { w with ships := update_ship w.ships b r.craft, score := r.score }
  | none => { w with despawned := despawn_target :: w.despawned }

/-- Second half of the `&entity == a` branch: guarded by get_entity(b); looks up
the b side and despawns b when no queried ship has that id. -/
def second_half_a (w : CollideWorld) (b : Nat) (flag : Bool) : CollideWorld :=
  if isLiveEntity w b then second_half_core w b flag b else w

/-- Second half of the `&entity == b` branch: guarded by get_entity(a), but (as
in the source) it looks the B side up among the ships again, and despawns a when
no queried ship has id b. -/
def second_half_b (w : CollideWorld) (a b : Nat) (flag : Bool) : CollideWorld :=
  if isLiveEntity w a then second_half_core w b flag a else w

/-- Processing of one Started(a, b) event once a queried ship `m` matched one of
the two sides.  In the matched branch: if get_entity succeeds on the matched side
and some live bullet of that ship is still immune, the whole system returns with
no state change; otherwise the survival-gated hit applies (when get_entity
succeeds), followed by the branch's second half. -/
def process_started (w : CollideWorld) (a b : Nat) (m : Nat × Spacecraft) :
    CollideWorld :=
  let aP := shot_by_player w.bullets a
  let bP := shot_by_player w.bullets b
  if m.1 == a then
    if isLiveEntity w a && has_immune_bullet w.bullets a then w
    else
      let w1 := if isLiveEntity w a then gated_hit w a m.2 bP else w
      second_half_a w1 b aP
  else
    if isLiveEntity w b && has_immune_bullet w.bullets b then w
    else
      let w1 := if isLiveEntity w b then gated_hit w b m.2 aP else w
      second_half_b w1 a b aP

/-- The collide_bullets system: drain the event queue in order; Stopped events
and Started events involving no queried ship are skipped; the first Started
event with a matching ship is processed and the system returns, leaving every
later event of the batch unprocessed. -/
def collide_bullets : List CollisionEvent → CollideWorld → CollideWorld
  | [], w => w
  | (CollisionEvent.stopped _ _) :: rest, w => collide_bullets rest w
  | (CollisionEvent.started a b) :: rest, w =>
      match find_matched w.ships a b with
      | none => collide_bullets rest w
      | some m => process_started w a b m

/-- A queried ship is a live entity. -/
theorem isLive_of_mem (w : CollideWorld) (id : Nat) (s : Spacecraft)
    (h : (id, s) ∈ w.ships) : isLiveEntity w id = true := by
  have hany : w.ships.any (fun p => p.1 == id) = true :=
    List.any_eq_true.mpr ⟨(id, s), h, by simp⟩
  simp [isLiveEntity, hany]

/-- find_matched returns a queried ship matching one of the two sides. -/
theorem find_matched_mem (ships : List (Nat × Spacecraft)) (a b mid : Nat)
    (ms : Spacecraft) (h : find_matched ships a b = some (mid, ms)) :
    (mid, ms) ∈ ships ∧ (mid == a || mid == b) = true := by
  have h0 : ships.find? (fun p => p.1 == a || p.1 == b) = some (mid, ms) := h
  have h1 : (mid, ms) ∈ ships := List.mem_of_find?_eq_some h0
  have h2 := List.find?_some h0
  exact ⟨h1, by simpa using h2⟩

/-- When the matched ship still has a live bullet inside its immunity window,
processing the event changes nothing at all. -/
theorem process_started_immune (w : CollideWorld) (a b mid : Nat) (ms : Spacecraft)
    (hmem : (mid, ms) ∈ w.ships) (hab : (mid == a || mid == b) = true)
    (himm : has_immune_bullet w.bullets mid = true) :
    process_started w a b (mid, ms) = w := by
  have hlive := isLive_of_mem w mid ms hmem
  cases hA : (mid == a) with
  | true =>
      have ha : mid = a := eq_of_beq hA
      subst ha
      simp [process_started, hlive, himm]
  | false =>
      have hB : (mid == b) = true := by
        cases hor : (mid == b) with
        | true => rfl
        | false => rw [hA, hor] at hab; exact absurd hab (by simp)
      have hb : mid = b := eq_of_beq hB
      subst hb
      simp [process_started, hA, hlive, himm]

/-- C2: every spawned bullet starts its self-immunity timer at 0.25 s (inside
the spec's 0.2 to 0.3 s window) and unfinished at spawn; and whichever way
round the physics engine reports a collision between a bullet and its own
shooter, while that bullet's immunity timer has not finished the collide_bullets
run changes nothing: the shooter takes zero damage, keeps its health and is not
despawned (the whole world is returned unchanged). -/
theorem c2_bullet_self_immunity (w : CollideWorld) (rest : List CollisionEvent)
    (bid sid : Nat) (bl : Bullet) (s : Spacecraft)
    (hmem : (bid, bl) ∈ w.bullets)
    (hsh : bl.shooter = sid)
    (himm : bl.immunity_time.finished = false)
    (h1 : find_matched w.ships bid sid = some (sid, s))
    (h2 : find_matched w.ships sid bid = some (sid, s)) :
    (spawn_bullet_immunity.duration = 1/4 ∧
     (2/10 : Rat) ≤ spawn_bullet_immunity.duration ∧
     spawn_bullet_immunity.duration ≤ 3/10 ∧
     spawn_bullet_immunity.finished = false) ∧
    collide_bullets (CollisionEvent.started bid sid :: rest) w = w ∧
    collide_bullets (CollisionEvent.started sid bid :: rest) w = w := by
  have himmb : has_immune_bullet w.bullets sid = true :=
    List.any_eq_true.mpr ⟨(bid, bl), hmem, by simp [hsh, himm]⟩
  obtain ⟨hm1, hab1⟩ := find_matched_mem w.ships bid sid sid s h1
  obtain ⟨hm2, hab2⟩ := find_matched_mem w.ships sid bid sid s h2
  refine ⟨⟨rfl, by norm_num [spawn_bullet_immunity, STimer.fromSeconds],
          by norm_num [spawn_bullet_immunity, STimer.fromSeconds],
          by norm_num [spawn_bullet_immunity, STimer.fromSeconds, STimer.finished]⟩, ?_, ?_⟩
  · have e1 : collide_bullets (CollisionEvent.started bid sid :: rest) w =
        process_started w bid sid (sid, s) := by
      simp [collide_bullets, h1]
    rw [e1]
    exact process_started_immune w bid sid sid s hm1 hab1 himmb
  · have e2 : collide_bullets (CollisionEvent.started sid bid :: rest) w =
        process_started w sid bid (sid, s) := by
      simp [collide_bullets, h2]
    rw [e2]
    exact process_started_immune w sid bid sid s hm2 hab2 himmb

/-- Concrete ship used in the C2 witness. -/
def c2_ship : Spacecraft := Spacecraft.from_template ShipType.Ship1 (0, 0)

/-- Concrete freshly spawned bullet of ship 1 used in the C2 witness. -/
def c2_bullet : Bullet := ⟨0, (0, 0), 0, 1, spawn_bullet_immunity, true⟩

/-- Concrete world for the C2 witness: ship 1 and its own fresh bullet 2. -/
def c2_world : CollideWorld :=
  ⟨[(1, c2_ship)], [(2, c2_bullet)], ⟨0, 10⟩, [], [], [], []⟩

/-- Witness for C2: bullet 2 collides with its shooter, ship 1, in either event
order; nothing changes. -/
theorem c2_bullet_self_immunity_witness :
    collide_bullets [CollisionEvent.started 2 1] c2_world = c2_world ∧
    collide_bullets [CollisionEvent.started 1 2] c2_world = c2_world := by
  have h := c2_bullet_self_immunity c2_world [] 2 1 c2_bullet c2_ship
    (by simp [c2_world]) rfl
    (by norm_num [c2_bullet, spawn_bullet_immunity, STimer.fromSeconds, STimer.finished])
    rfl rfl
  exact ⟨h.2.1, h.2.2⟩

/-- The first Started event of the batch that involves a queried ship, together
with the matched ship. -/
def first_started_match (ships : List (Nat × Spacecraft)) :
    List CollisionEvent → Option (Nat × Nat × Nat × Spacecraft)
  | [] => none
  | (CollisionEvent.started a b) :: rest =>
      match find_matched ships a b with
      | some m => some (a, b, m.1, m.2)
      | none => first_started_match ships rest
  | (CollisionEvent.stopped _ _) :: rest => first_started_match ships rest

/-- collide_bullets is fully described by its first ship-involving Started
event: nothing at all happens for the events before it or after it. -/
theorem collide_bullets_eq_first_match (evs : List CollisionEvent) (w : CollideWorld) :
    collide_bullets evs w =
      (match first_started_match w.ships evs with
       | none => w
       | some (a, b, mid, ms) => process_started w a b (mid, ms)) := by
  induction evs with
  | nil => rfl
  | cons e rest ih =>
      cases e with
      | stopped a b => simpa [collide_bullets, first_started_match] using ih
      | started a b =>
          cases hm : find_matched w.ships a b with
          | none => simpa [collide_bullets, first_started_match, hm] using ih
          | some m =>
              obtain ⟨mid, ms⟩ := m
              simp [collide_bullets, first_started_match, hm]

/-- The event selected by first_started_match really had that matched ship. -/
theorem first_started_match_spec (ships : List (Nat × Spacecraft))
    (evs : List CollisionEvent) (a b mid : Nat) (ms : Spacecraft)
    (h : first_started_match ships evs = some (a, b, mid, ms)) :
    find_matched ships a b = some (mid, ms) := by
  induction evs with
  | nil => exact absurd h (by simp [first_started_match])
  | cons e rest ih =>
      cases e with
      | stopped x y => exact ih (by simpa [first_started_match] using h)
      | started x y =>
          cases hm : find_matched ships x y with
          | none => exact ih (by simpa [first_started_match, hm] using h)
          | some m =>
              rw [first_started_match, hm] at h
              obtain ⟨m1, m2⟩ := m
              simp only [Option.some.injEq, Prod.mk.injEq] at h
              obtain ⟨h1, h2, h3, h4⟩ := h
              subst h1; subst h2; subst h3; subst h4
              exact hm

/-- C10: in each tick the collision-resolution system processes at most one
collision event involving a queried ship and then returns: the whole run of
collide_bullets equals the processing of just its first ship-involving Started
event, so all remaining events of the batch leave every other ship's health,
the score and the markers unchanged.  Furthermore, if some live bullet whose
shooter is the struck (matched) ship still has an unfinished immunity timer,
the system returns before applying any damage at all that tick. -/
theorem c10_at_most_one_event (evs : List CollisionEvent) (w : CollideWorld) :
    (collide_bullets evs w =
      (match first_started_match w.ships evs with
       | none => w
       | some (a, b, mid, ms) => process_started w a b (mid, ms))) ∧
    (∀ a b mid ms, first_started_match w.ships evs = some (a, b, mid, ms) →
       has_immune_bullet w.bullets mid = true →
       collide_bullets evs w = w) := by
  refine ⟨collide_bullets_eq_first_match evs w, ?_⟩
  intro a b mid ms hfm himm
  have hfind := first_started_match_spec w.ships evs a b mid ms hfm
  obtain ⟨hmem, hab⟩ := find_matched_mem w.ships a b mid ms hfind
  have he := collide_bullets_eq_first_match evs w
  rw [hfm] at he
  rw [he]
  exact process_started_immune w a b mid ms hmem hab himm

/-- Witness for C10: in the two-event batch below, the first event involves
ship 1, whose live bullet 2 is still immune, so the whole system run changes
nothing; in particular the second event is never processed. -/
theorem c10_at_most_one_event_witness :
    collide_bullets
      [CollisionEvent.started 2 1, CollisionEvent.started 2 1] c2_world = c2_world :=
  (c10_at_most_one_event
      [CollisionEvent.started 2 1, CollisionEvent.started 2 1] c2_world).2 2 1 1 c2_ship
    rfl
    (by norm_num [c2_world, has_immune_bullet, c2_bullet, spawn_bullet_immunity,
          STimer.fromSeconds, STimer.finished])

/-- Concrete ship used for C9: a freshly spawned Ship1 with 2 health. -/
def c9_ship : Spacecraft := Spacecraft.from_template ShipType.Ship1 (0, 0)

/-- Concrete player bullet used for C9 (shot by the old ship 3, immunity long
finished). -/
def c9_bullet : Bullet := ⟨0, (0, 0), 0, 3, ⟨1/4, 1, false⟩, true⟩

/-- Concrete world for C9: ship 2, player bullet 1, survival clock at 2 s. -/
def c9_world : CollideWorld :=
  ⟨[(2, c9_ship)], [(1, c9_bullet)], ⟨0, 2⟩, [], [], [], []⟩

/-- C9 (counterexample): with the survival clock at 2 s ≤ 3 s, a player bullet
hitting ship 2 still changes the ship's health (2 to 1) and still awards 5
score, through the un-time-gated second collide of the matched branch; so it is
false that no ship's health changes and no score is awarded at or below 3
seconds. -/
theorem c9_counterexample_damage_before_three_seconds :
    c9_world.score.survived ≤ 3 ∧
    c9_world.score.score = 0 ∧
    c9_ship.health = 2 ∧
    (collide_bullets [CollisionEvent.started 1 2] c9_world).score.score = 5 ∧
    (collide_bullets [CollisionEvent.started 1 2] c9_world).ships =
      [(2, { c9_ship with health := 1 })] := by
  refine ⟨by norm_num [c9_world], rfl, rfl, ?_, ?_⟩ <;>
    norm_num [c9_world, c9_ship, c9_bullet, collide_bullets, find_matched,
      process_started, gated_hit, second_half_b, second_half_core, isLiveEntity,
      has_immune_bullet, shot_by_player, update_ship, Spacecraft.collide,
      Spacecraft.from_template, ShipProfile.from_type, STimer.finished]

/-- The ungated second half never touches the explosion or pending markers. -/
theorem second_half_core_markers (w : CollideWorld) (b : Nat) (f : Bool) (d : Nat) :
    (second_half_core w b f d).explosionMarked = w.explosionMarked ∧
    (second_half_core w b f d).pendingMarked = w.pendingMarked := by
  cases hf : w.ships.find? (fun p => p.1 == b) with
  | none => simp [second_half_core, hf]
  | some p => simp [second_half_core, hf]

/-- Marker preservation for the a-branch second half. -/
theorem second_half_a_markers (w : CollideWorld) (b : Nat) (f : Bool) :
    (second_half_a w b f).explosionMarked = w.explosionMarked ∧
    (second_half_a w b f).pendingMarked = w.pendingMarked := by
  unfold second_half_a
  cases hl : isLiveEntity w b with
  | true => simpa [hl] using second_half_core_markers w b f b
  | false => simp [hl]

/-- Marker preservation for the b-branch second half. -/
theorem second_half_b_markers (w : CollideWorld) (a b : Nat) (f : Bool) :
    (second_half_b w a b f).explosionMarked = w.explosionMarked ∧
    (second_half_b w a b f).pendingMarked = w.pendingMarked := by
  unfold second_half_b
  cases hl : isLiveEntity w a with
  | true => simpa [hl] using second_half_core_markers w b f a
  | false => simp [hl]

/-- With at most 3 survived seconds the gated hit is skipped entirely. -/
theorem gated_hit_skip (w : CollideWorld) (t : Nat) (s : Spacecraft) (f : Bool)
    (h : ¬ (3 < w.score.survived)) : gated_hit w t s f = w := by
  simp [gated_hit, h]

/-- With at most 3 survived seconds, processing an event never inserts an
ExplosionMarker or a pending-decision marker. -/
theorem process_started_markers (w : CollideWorld) (a b : Nat) (m : Nat × Spacecraft)
    (h : ¬ (3 < w.score.survived)) :
    (process_started w a b m).explosionMarked = w.explosionMarked ∧
    (process_started w a b m).pendingMarked = w.pendingMarked := by
  have hg : ∀ t s f, gated_hit w t s f = w := fun t s f => gated_hit_skip w t s f h
  unfold process_started
  cases hA : (m.1 == a) with
  | true =>
      cases hI : (isLiveEntity w a && has_immune_bullet w.bullets a) with
      | true => simp [hA, hI]
      | false =>
          simpa [hA, hI, hg, ite_self] using
            second_half_a_markers w b (shot_by_player w.bullets a)
  | false =>
      cases hI : (isLiveEntity w b && has_immune_bullet w.bullets b) with
      | true => simp [hA, hI]
      | false =>
          simpa [hA, hI, hg, ite_self] using
            second_half_b_markers w a b (shot_by_player w.bullets a)

/-- C9 (amended): while the survival clock is at or below 3 seconds, no ship is
flagged for explosion and no ship becomes decision-pending during a
collide_bullets run (the survival gate does suppress the marker insertions and
the primary damage block); ship health and score, however, can still change
through the second, un-time-gated collide of the matched branch, as the
counterexample shows. -/
theorem c9_amended_no_flags_before_three_seconds (evs : List CollisionEvent)
    (w : CollideWorld) (h : w.score.survived ≤ 3) :
    (collide_bullets evs w).explosionMarked = w.explosionMarked ∧
    (collide_bullets evs w).pendingMarked = w.pendingMarked := by
  have hng : ¬ (3 < w.score.survived) := not_lt.mpr h
  induction evs with
  | nil => exact ⟨rfl, rfl⟩
  | cons e rest ih =>
      cases e with
      | stopped a b => simpa [collide_bullets] using ih
      | started a b =>
          cases hm : find_matched w.ships a b with
          | none => simpa [collide_bullets, hm] using ih
          | some m =>
              simpa [collide_bullets, hm] using process_started_markers w a b m hng

/-- Witness for the amended C9 at a concrete input. -/
theorem c9_amended_no_flags_before_three_seconds_witness :
    (collide_bullets [CollisionEvent.started 1 2] c9_world).explosionMarked =
      c9_world.explosionMarked ∧
    (collide_bullets [CollisionEvent.started 1 2] c9_world).pendingMarked =
      c9_world.pendingMarked :=
  c9_amended_no_flags_before_three_seconds [CollisionEvent.started 1 2] c9_world
    (by norm_num [c9_world])

/-- The shield marker state of one ship: no marker, the RechargingShieldMarker
inserted by handle_inputs, or the ShieldTimeRemainingTimer inserted by the
setup pass of recharge_shield. -/
inductive ShieldPhase
  | idle
  | marked
  | recharging (t : STimer)
deriving DecidableEq

/-- A ship together with its shield marker state. -/
structure ShieldShip where
  craft : Spacecraft
  phase : ShieldPhase
deriving DecidableEq

/-- The shield-activation fragment of handle_inputs (KeyS pressed, state not
Paused): the player query requires the ship to carry neither marker, and the
activation itself requires shield_recharge.finished(); it inserts the
RechargingShieldMarker and resets the shield_recharge timer. -/
def activate_shield (s : ShieldShip) : ShieldShip :=
  match s.phase with
  | ShieldPhase.idle =>
      if s.craft.shield_recharge.finished then
        { craft := { s.craft with shield_recharge := s.craft.shield_recharge.reset },
          phase := ShieldPhase.marked }
      else s
  | _ => s

/-- The fragment of move_spaceships relevant to the shield machine: every tick
it ticks the ship's shield_recharge timer by the frame delta. -/
def move_tick_shield (c : Spacecraft) (delta : Rat) : Spacecraft :=
  { c with shield_recharge := c.shield_recharge.tick delta }

/-- The recharge_shield system for one ship.  The setup branch turns the
RechargingShieldMarker into a ShieldTimeRemainingTimer over the profile's
recharge time (the spawned progress sprite is render-only and not modelled).
The recharging branch ticks that timer, forces velocity and delta_rotation to
zero, and on shield_recharge.just_finished() removes the timer and heals +1
capped at the profile's max_health. -/
def recharge_shield (s : ShieldShip) (delta : Rat) : ShieldShip :=
  match s.phase with
  | ShieldPhase.idle => s
  | ShieldPhase.marked =>
      let nt :=
        STimer.fromSeconds (ShipProfile.from_type s.craft.ship_type).shield_recharge_time
      { s with phase := ShieldPhase.recharging nt }
  | ShieldPhase.recharging t =>
      let t2 := t.tick delta
      let c := { s.craft with velocity := 0, delta_rotation := 0 }
      if c.shield_recharge.justFin then
        let h2 := min (c.health + 1) (ShipProfile.from_type c.ship_type).max_health
        { craft := { c with health := h2 }, phase := ShieldPhase.idle }
      else { craft := c, phase := ShieldPhase.recharging t2 }

/-- One full frame for a ship in the shield machine: move_spaceships ticks the
shield_recharge timer, then recharge_shield runs. -/
def shield_frame (s : ShieldShip) (delta : Rat) : ShieldShip :=
  recharge_shield { s with craft := move_tick_shield s.craft delta } delta

/-- C3: a ship with a finished shield_recharge timer and a shield-activation
input starts a recharge (marker inserted, timer reset; without a finished timer
nothing happens); while the recharge runs, every tick forces velocity and
delta_rotation to 0 and the ship keeps recharging until the timer completes; on
completion the ship returns to idle and health increases by exactly 1, capped
at and never exceeding ShipProfile(ship_type).max_health. -/
theorem c3_shield_recharge_machine (c : Spacecraft) (delta : Rat) (t : STimer) :
    (c.shield_recharge.finished = true →
       (activate_shield ⟨c, ShieldPhase.idle⟩).phase = ShieldPhase.marked ∧
       (activate_shield ⟨c, ShieldPhase.idle⟩).craft.shield_recharge.elapsed = 0) ∧
    (c.shield_recharge.finished = false →
       activate_shield ⟨c, ShieldPhase.idle⟩ = ⟨c, ShieldPhase.idle⟩) ∧
    ((shield_frame ⟨c, ShieldPhase.recharging t⟩ delta).craft.velocity = 0 ∧
     (shield_frame ⟨c, ShieldPhase.recharging t⟩ delta).craft.delta_rotation = 0) ∧
    ((move_tick_shield c delta).shield_recharge.justFin = false →
       (shield_frame ⟨c, ShieldPhase.recharging t⟩ delta).phase =
         ShieldPhase.recharging (t.tick delta)) ∧
    ((move_tick_shield c delta).shield_recharge.justFin = true →
       (shield_frame ⟨c, ShieldPhase.recharging t⟩ delta).craft.health =
         min (c.health + 1) (ShipProfile.from_type c.ship_type).max_health ∧
       (shield_frame ⟨c, ShieldPhase.recharging t⟩ delta).craft.health ≤
         (ShipProfile.from_type c.ship_type).max_health ∧
       (c.health < (ShipProfile.from_type c.ship_type).max_health →
         (shield_frame ⟨c, ShieldPhase.recharging t⟩ delta).craft.health = c.health + 1) ∧
       (shield_frame ⟨c, ShieldPhase.recharging t⟩ delta).phase = ShieldPhase.idle) := by
  refine ⟨?_, ?_, ?_, ?_, ?_⟩
  · intro hf
    simp [activate_shield, hf, STimer.reset]
  · intro hf
    simp [activate_shield, hf]
  · simp only [shield_frame, recharge_shield, move_tick_shield]
    constructor <;> · split <;> rfl
  · intro hjf
    simp only [shield_frame, recharge_shield, move_tick_shield] at hjf ⊢
    simp [hjf]
  · intro hjf
    have h1 : (shield_frame ⟨c, ShieldPhase.recharging t⟩ delta).craft.health =
        min (c.health + 1) (ShipProfile.from_type c.ship_type).max_health := by
      simp only [shield_frame, recharge_shield, move_tick_shield] at hjf ⊢
      simp [hjf]
    refine ⟨h1, ?_, ?_, ?_⟩
    · rw [h1]; exact min_le_right _ _
    · intro hlt; rw [h1]; omega
    · simp only [shield_frame, recharge_shield, move_tick_shield] at hjf ⊢
      simp [hjf]

/-- Concrete shield-ready ship for the C3 witness (shield timer finished at
spawn). -/
def c3_ready : Spacecraft := Spacecraft.from_template ShipType.Ship1 (0, 0)

/-- Concrete mid-recharge ship for the C3 witness: 1 health, shield timer at
3.5 s of its 4 s duration. -/
def c3_mid : Spacecraft :=
  { Spacecraft.from_template ShipType.Ship1 (0, 0) with
      health := 1, shield_recharge := ⟨4, 7/2, false⟩ }

/-- Witness for C3: activation succeeds on the ready ship; a 1 s frame on the
mid-recharge ship zeroes velocity, completes the recharge and heals exactly
one point (1 to 2, the Ship1 max). -/
theorem c3_shield_recharge_machine_witness :
    (activate_shield ⟨c3_ready, ShieldPhase.idle⟩).phase = ShieldPhase.marked ∧
    (shield_frame ⟨c3_mid, ShieldPhase.recharging ⟨4, 7/2, false⟩⟩ 1).craft.velocity = 0 ∧
    (shield_frame ⟨c3_mid, ShieldPhase.recharging ⟨4, 7/2, false⟩⟩ 1).craft.health = 1 + 1 ∧
    (shield_frame ⟨c3_mid, ShieldPhase.recharging ⟨4, 7/2, false⟩⟩ 1).phase =
      ShieldPhase.idle := by
  have hready := c3_shield_recharge_machine c3_ready 1 ⟨4, 7/2, false⟩
  have hmid := c3_shield_recharge_machine c3_mid 1 ⟨4, 7/2, false⟩
  have hjf : (move_tick_shield c3_mid 1).shield_recharge.justFin = true := by
    norm_num [move_tick_shield, c3_mid, STimer.tick]
  refine ⟨(hready.1 (by norm_num [c3_ready, Spacecraft.from_template,
      ShipProfile.from_type, STimer.finished])).1,
    (hmid.2.2.1).1, ?_, (hmid.2.2.2.2 hjf).2.2.2⟩
  exact (hmid.2.2.2.2 hjf).2.2.1
    (by norm_num [c3_mid, Spacecraft.from_template, ShipProfile.from_type])

/-- The top-level gameplay mode (enum GameState). -/
inductive GameState
  | regular
  | paused
deriving DecidableEq

/-- The three decision outcomes (enum ShipUsageDecision). -/
inductive ShipUsageDecision
  | transfer
  | keep
  | destroy
deriving DecidableEq

/-- State of the decision-resolution system check_for_usage_decision: the
(NextState) game mode, all ships with the id set of decision-pending ones, the
spawned decision entities and prompt-image entities, the Captured and
SwapToShipMarker id sets, the entities despawned through Commands and the score
resource. -/
structure DecisionWorld where
  state : GameState
  ships : List (Nat × Spacecraft)
  pendingIds : List Nat
  decisions : List (Nat × ShipUsageDecision)
  images : List Nat
  captured : List Nat
  swapMarked : List Nat
  despawned : List Nat
  score : PlayerScore
deriving DecidableEq

/-- The Destroy arm: every decision-pending ship loses its marker and takes
collide(100, reduce_to_one := false); the score resource is threaded through
each call. -/
def apply_destroy : List (Nat × Spacecraft) → List Nat → PlayerScore →
    List (Nat × Spacecraft) × PlayerScore
  | [], _, sc => ([], sc)
  | p :: rest, pend, sc =>
      if pend.contains p.1 then
        let r := p.2.collide 100 false sc
        let q := apply_destroy rest pend r.score
        ((p.1, r.craft) :: q.1, q.2)
      else
        let q := apply_destroy rest pend sc
        (p :: q.1, q.2)

/-- The check_for_usage_decision system.  It acts only when exactly one decision
entity exists (usage.get_single()); the selected arm runs over every
decision-pending ship and removes the marker; afterwards the (sole) prompt
image and the decision entity are despawned and the game mode is set back to
Regular.  image.single() panics unless exactly one prompt image exists, which
is modelled as `none`. -/
def check_for_usage_decision (w : DecisionWorld) : Option DecisionWorld :=
  match w.decisions with
  | [(e, d)] =>
      let w1 :=
        match d with
        | ShipUsageDecision.transfer =>
            { w with swapMarked := w.pendingIds ++ w.swapMarked, pendingIds := [] }
        | ShipUsageDecision.keep =>
            { w with captured := w.pendingIds ++ w.captured, pendingIds := [] }
        | ShipUsageDecision.destroy =>
            let q := apply_destroy w.ships w.pendingIds w.score
            { w with ships := q.1, score := q.2, pendingIds := [] }
      match w1.images with
      | [img] =>
          some { w1 with despawned := img :: e :: w1.despawned,
                         images := [], decisions := [],
                         state := GameState.regular }
      | _ => none
  | _ => some w

/-- Squared Euclidean distance.  The source compares `Vec2::distance` against
thresholds; comparing the squared distance against the squared threshold is
equivalent since both sides are nonnegative. -/
def distSq (a b : Rat × Rat) : Rat := (a.1 - b.1) ^ 2 + (a.2 - b.2) ^ 2

/-- The despawn set of the kill_dead_ships cleanup pass: among the queried ships
(non-player, not decision-pending, not explosion-marked), those with health ≤ 0
or at squared distance ≥ 100 (distance ≥ 10) from the player. -/
def kill_dead_list (player : Spacecraft) (ships : List (Nat × Spacecraft)) :
    List Nat :=
  (ships.filter fun p =>
      decide (p.2.health ≤ 0) || decide (100 ≤ distSq p.2.position player.position)).map
    Prod.fst

/-- A ship that is in the cleanup query with health ≤ 0 is despawned by
kill_dead_ships. -/
theorem kill_dead_list_mem (player : Spacecraft) (ships : List (Nat × Spacecraft))
    (id : Nat) (s : Spacecraft) (hmem : (id, s) ∈ ships) (h : s.health ≤ 0) :
    id ∈ kill_dead_list player ships := by
  refine List.mem_map.mpr ⟨(id, s), List.mem_filter.mpr ⟨hmem, ?_⟩, rfl⟩
  simp [h]

/-- apply_destroy hits every pending ship with collide(100, false); the craft
that comes out does not depend on the threaded score, because reduce_to_one is
false. -/
theorem apply_destroy_mem (ships : List (Nat × Spacecraft)) (pend : List Nat)
    (sc : PlayerScore) (id : Nat) (s : Spacecraft)
    (hmem : (id, s) ∈ ships) (hpend : pend.contains id = true) :
    (id, { s with health := s.health - 100 }) ∈ (apply_destroy ships pend sc).1 := by
  induction ships generalizing sc with
  | nil => exact absurd hmem (List.not_mem_nil _)
  | cons p rest ih =>
      rcases List.mem_cons.mp hmem with h | h
      · subst h
        simp only [apply_destroy, hpend, if_true]
        have hc : ((id, s).2.collide 100 false sc).craft =
            { s with health := s.health - 100 } := (collide_false_spec s 100 sc).1
        rw [hc]
        exact List.mem_cons_self _ _
      · by_cases hp : pend.contains p.1 = true
        · simp only [apply_destroy, hp, if_true]
          exact List.mem_cons_of_mem _ (ih _ h)
        · simp only [apply_destroy, hp]
          simp only [Bool.false_eq_true, if_false]
          exact List.mem_cons_of_mem _ (ih _ h)

/-- C4: resolving a Destroy decision on a decision-pending ship removes the
pending marker, despawns the decision prompt image and the decision entity,
sets the game mode back to Regular and applies collide(100, reduce_to_one :=
false) to that ship; with at most 100 health it then has health ≤ 0 and is
despawned by any later kill_dead_ships pass whose query contains it. -/
theorem c4_destroy_decision (w : DecisionWorld) (e img sid : Nat) (s : Spacecraft)
    (hd : w.decisions = [(e, ShipUsageDecision.destroy)])
    (him : w.images = [img])
    (hp : w.pendingIds = [sid])
    (hs : (sid, s) ∈ w.ships) :
    ∃ w2, check_for_usage_decision w = some w2 ∧
      w2.pendingIds = [] ∧
      img ∈ w2.despawned ∧ e ∈ w2.despawned ∧
      w2.images = [] ∧ w2.decisions = [] ∧
      w2.state = GameState.regular ∧
      (sid, { s with health := s.health - 100 }) ∈ w2.ships ∧
      (s.health ≤ 100 → ∀ player ships2,
        (sid, { s with health := s.health - 100 }) ∈ ships2 →
        sid ∈ kill_dead_list player ships2) := by
  have hpend : w.pendingIds.contains sid = true := by simp [hp]
  have hm := apply_destroy_mem w.ships w.pendingIds w.score sid s hs hpend
  refine ⟨_, by rw [check_for_usage_decision, hd]; rw [him], ?_, ?_, ?_, ?_, ?_, ?_, ?_, ?_⟩
  · rfl
  · simp
  · simp
  · rfl
  · rfl
  · rfl
  · exact hm
  · intro hh player ships2 hmem2
    exact kill_dead_list_mem player ships2 sid _ hmem2 (by simp; omega)

/-- Concrete decision-pending ship for the C4 witness (health already clamped
to 1 by the kill-shot). -/
def c4_ship : Spacecraft :=
  { Spacecraft.from_template ShipType.Ship1 (0, 0) with health := 1 }

/-- Concrete paused world for the C4 witness: pending ship 7, decision entity 9
carrying Destroy, prompt image 11. -/
def c4_world : DecisionWorld :=
  ⟨GameState.paused, [(7, c4_ship)], [7], [(9, ShipUsageDecision.destroy)], [11],
    [], [], [], ⟨0, 5⟩⟩

/-- Witness for C4 at the concrete world. -/
theorem c4_destroy_decision_witness :
    ∃ w2, check_for_usage_decision c4_world = some w2 ∧
      w2.pendingIds = [] ∧
      11 ∈ w2.despawned ∧ 9 ∈ w2.despawned ∧
      w2.images = [] ∧ w2.decisions = [] ∧
      w2.state = GameState.regular ∧
      (7, { c4_ship with health := c4_ship.health - 100 }) ∈ w2.ships ∧
      (c4_ship.health ≤ 100 → ∀ player ships2,
        (7, { c4_ship with health := c4_ship.health - 100 }) ∈ ships2 →
        7 ∈ kill_dead_list player ships2) :=
  c4_destroy_decision c4_world 9 11 7 c4_ship rfl rfl rfl (by simp [c4_world])

/-- The state read and written by the enforce_border system: the player ship
(matching the query: present and not yet explosion-marked), whether the player
was explosion-flagged, the dialogue box and the score resource. -/
structure BorderWorld where
  player : Spacecraft
  explosionMarked : Bool
  dialogueShown : Bool
  dialogueText : String
  score : PlayerScore
deriving DecidableEq

/-- Vec2::new(0., 0.), the arena origin used by enforce_border. -/
def origin : Rat × Rat := (0, 0)

/-- The warning line shown by enforce_border. -/
def border_warning_text : String :=
  "Captain! If we go much further out, we'll explode."

/-- The enforce_border system body: with the player's distance from the origin
at least 10 (squared distance at least 100), the warning dialogue is set and
shown, and at distance at least 15 (squared 225) the player is additionally
explosion-flagged and takes collide(100, reduce_to_one := false); below 10 the
dialogue is hidden. -/
def enforce_border (w : BorderWorld) : BorderWorld :=
  if 100 ≤ distSq w.player.position origin then
    let w1 :=
      if 225 ≤ distSq w.player.position origin then
        let r := w.player.collide 100 false w.score
        { w with explosionMarked := true, player := r.craft, score := r.score }
      else w
    { w1 with dialogueShown := true, dialogueText := border_warning_text }
  else { w with dialogueShown := false }

/-- C5: every tick on which the enforce_border system runs on the player, at
distance ≥ 10 from the origin the warning dialogue is shown, at distance ≥ 15
the player additionally takes 100 non-reducible damage (score untouched) and is
flagged for explosion, and below distance 10 the dialogue is hidden. -/
theorem c5_enforce_border (w : BorderWorld) :
    (100 ≤ distSq w.player.position origin →
       (enforce_border w).dialogueShown = true ∧
       (enforce_border w).dialogueText = border_warning_text) ∧
    (225 ≤ distSq w.player.position origin →
       (enforce_border w).player.health = w.player.health - 100 ∧
       (enforce_border w).explosionMarked = true ∧
       (enforce_border w).score = w.score) ∧
    (distSq w.player.position origin < 100 →
       (enforce_border w).dialogueShown = false) := by
  refine ⟨?_, ?_, ?_⟩
  · intro h10
    by_cases h15 : 225 ≤ distSq w.player.position origin <;>
      simp [enforce_border, h10, h15]
  · intro h15
    have h10 : 100 ≤ distSq w.player.position origin := le_trans (by norm_num) h15
    simp [enforce_border, h10, h15, Spacecraft.collide]
  · intro hlt
    have h10 : ¬ (100 ≤ distSq w.player.position origin) := not_le.mpr hlt
    simp [enforce_border, h10]

/-- Concrete far-out world for the C5 witness: player at (20, 0), distance 20. -/
def c5_far : BorderWorld :=
  ⟨Spacecraft.from_template ShipType.Ship2 (20, 0), false, false, "", ⟨0, 0⟩⟩

/-- Concrete near-origin world for the C5 witness: player at (1, 0). -/
def c5_near : BorderWorld :=
  ⟨Spacecraft.from_template ShipType.Ship2 (1, 0), false, false, "", ⟨0, 0⟩⟩

/-- Witness for C5: at distance 20 the dialogue shows, health drops by 100 and
the explosion flag is set; at distance 1 the dialogue is hidden. -/
theorem c5_enforce_border_witness :
    ((enforce_border c5_far).dialogueShown = true ∧
      (enforce_border c5_far).dialogueText = border_warning_text) ∧
    ((enforce_border c5_far).player.health = c5_far.player.health - 100 ∧
      (enforce_border c5_far).explosionMarked = true ∧
      (enforce_border c5_far).score = c5_far.score) ∧
    (enforce_border c5_near).dialogueShown = false := by
  have hfar : (225 : Rat) ≤ distSq c5_far.player.position origin := by
    norm_num [c5_far, distSq, origin, Spacecraft.from_template]
  have h100 : (100 : Rat) ≤ distSq c5_far.player.position origin :=
    le_trans (by norm_num) hfar
  have hnear : distSq c5_near.player.position origin < 100 := by
    norm_num [c5_near, distSq, origin, Spacecraft.from_template]
  exact ⟨(c5_enforce_border c5_far).1 h100,
         (c5_enforce_border c5_far).2.1 hfar,
         (c5_enforce_border c5_near).2.2 hnear⟩

/-- points_for_ship: the fixed per-type threat cost constants. -/
def points_for_ship : ShipType → Int
  | ShipType.Ship1 => 4
  | ShipType.Ship2 => 7
  | ShipType.Ship3 => 15
  | ShipType.Ship4 => 21
  | ShipType.Ship5 => 31
  | ShipType.Ship6 => 50

/-- points_currently_deployed, transcribed from the source: it maps each
deployed ship to its cost and then takes `.count()` — the LENGTH of the list,
not the sum of the costs. -/
def points_currently_deployed (ships : List ShipType) : Int :=
  ((ships.map points_for_ship).length : Int)

/-- Follows the spec's words for C6: the deployed threat cost as the SUM of the
fixed per-type point costs over the deployed fleet. -/
def deployed_cost_spec (ships : List ShipType) : Int :=
  (ships.map points_for_ship).sum

/-- The budget-update line of spawn_ships, with `gain` standing for the already
computed income term `ceil((0.4*dist + survived/20 + score/50) * 0.25) as i32`:
the amount subtracted is points_currently_deployed(fleet). -/
def spawn_budget_update (budget gain : Int) (fleet : List ShipType) : Int :=
  budget + gain - points_currently_deployed fleet

/-- C6 (code bug): the amount subtracted from the threat budget is the COUNT of
deployed enemies, not the sum of their per-type costs: a fleet of one Ship6
subtracts 1, while the fixed costs (Ship6 = 50) would make the claimed sum 50.
The per-type constants themselves match the claim. -/
theorem c6_deployed_cost_is_count_not_sum :
    points_currently_deployed [ShipType.Ship6] = 1 ∧
    deployed_cost_spec [ShipType.Ship6] = 50 ∧
    points_currently_deployed [ShipType.Ship6] ≠ deployed_cost_spec [ShipType.Ship6] ∧
    spawn_budget_update 0 0 [ShipType.Ship6] = -1 ∧
    points_for_ship ShipType.Ship1 = 4 ∧ points_for_ship ShipType.Ship2 = 7 ∧
    points_for_ship ShipType.Ship3 = 15 ∧ points_for_ship ShipType.Ship4 = 21 ∧
    points_for_ship ShipType.Ship5 = 31 ∧ points_for_ship ShipType.Ship6 = 50 := by
  refine ⟨rfl, rfl, by decide, rfl, rfl, rfl, rfl, rfl, rfl, rfl⟩

/-- The six tallies of take_ship_stock (f32 counters t1..t6). -/
structure Tally where
  t1 : Rat
  t2 : Rat
  t3 : Rat
  t4 : Rat
  t5 : Rat
  t6 : Rat
deriving DecidableEq

/-- The tally loop of take_ship_stock, transcribed with the source's bucket
slips: Ship4 increments t3, Ship5 increments t4, Ship6 increments t5, and t6 is
never incremented. -/
def tally_ships : List ShipType → Tally
  | [] => ⟨0, 0, 0, 0, 0, 0⟩
  | s :: rest =>
      let t := tally_ships rest
      match s with
      | ShipType.Ship1 => { t with t1 := t.t1 + 1 }
      | ShipType.Ship2 => { t with t2 := t.t2 + 1 }
      | ShipType.Ship3 => { t with t3 := t.t3 + 1 }
      | ShipType.Ship4 => { t with t3 := t.t3 + 1 }
      | ShipType.Ship5 => { t with t4 := t.t4 + 1 }
      | ShipType.Ship6 => { t with t5 := t.t5 + 1 }

/-- f32 division as used in the stock-taking; `none` models the NaN produced by
0.0/0.0 on an empty fleet (the only division by zero reachable here, since
every tally is 0 when the count is 0). -/
def fdiv (x c : Rat) : Option Rat := if c = 0 then none else some (x / c)

/-- f32 subtraction of the target share; NaN propagates. -/
def fsub (x : Option Rat) (y : Rat) : Option Rat :=
  match x with
  | none => none
  | some a => some (a - y)

/-- The strict part of f32::total_cmp on the values arising here: a real number
precedes NaN and NaN equals NaN (the NaNs produced by 0.0/0.0 all carry the
same sign, so they compare equal to each other; whether they sort before or
after the reals is irrelevant because either all six deficits are NaN or none
is). -/
def fLt (x y : Option Rat) : Bool :=
  match x, y with
  | none, _ => false
  | some _, none => true
  | some a, some b => decide (a < b)

/-- Rust sort_by(total_cmp) (a stable sort) followed by `[0]` returns the first
element, in original order, whose key is minimal; a left fold that replaces the
best element only on strictly smaller keys computes exactly that. -/
def first_min (hd : ShipType × Option Rat) (tl : List (ShipType × Option Rat)) :
    ShipType :=
  (tl.foldl (fun best x => if fLt x.2 best.2 then x else best) hd).1

/-- The per-type deficits computed by take_ship_stock: bugged tally divided by
the fleet size, minus the fixed target share (44%, 25%, 15%, 10%, 5%, 1%). -/
def stock_deficits (ships : List ShipType) : List (ShipType × Option Rat) :=
  let t := tally_ships ships
  let count : Rat := (ships.length : Rat)
  [(ShipType.Ship1, fsub (fdiv t.t1 count) (44/100)),
   (ShipType.Ship2, fsub (fdiv t.t2 count) (25/100)),
   (ShipType.Ship3, fsub (fdiv t.t3 count) (15/100)),
   (ShipType.Ship4, fsub (fdiv t.t4 count) (10/100)),
   (ShipType.Ship5, fsub (fdiv t.t5 count) (5/100)),
   (ShipType.Ship6, fsub (fdiv t.t6 count) (1/100))]

/-- take_ship_stock: the recommended next ship type is the first type whose
deficit is minimal under total_cmp. -/
def take_ship_stock (ships : List ShipType) : ShipType :=
  match stock_deficits ships with
  | hd :: tl => first_min hd tl
  | [] => ShipType.Ship1

/-- Follows the spec's words for C7: the same deficit-minimising choice but
with each type tallied into its own bucket. -/
def tally_spec : List ShipType → Tally
  | [] => ⟨0, 0, 0, 0, 0, 0⟩
  | s :: rest =>
      let t := tally_spec rest
      match s with
      | ShipType.Ship1 => { t with t1 := t.t1 + 1 }
      | ShipType.Ship2 => { t with t2 := t.t2 + 1 }
      | ShipType.Ship3 => { t with t3 := t.t3 + 1 }
      | ShipType.Ship4 => { t with t4 := t.t4 + 1 }
      | ShipType.Ship5 => { t with t5 := t.t5 + 1 }
      | ShipType.Ship6 => { t with t6 := t.t6 + 1 }

/-- Follows the spec's words for C7: deficits from the true frequencies. -/
def stock_deficits_spec (ships : List ShipType) : List (ShipType × Option Rat) :=
  let t := tally_spec ships
  let count : Rat := (ships.length : Rat)
  [(ShipType.Ship1, fsub (fdiv t.t1 count) (44/100)),
   (ShipType.Ship2, fsub (fdiv t.t2 count) (25/100)),
   (ShipType.Ship3, fsub (fdiv t.t3 count) (15/100)),
   (ShipType.Ship4, fsub (fdiv t.t4 count) (10/100)),
   (ShipType.Ship5, fsub (fdiv t.t5 count) (5/100)),
   (ShipType.Ship6, fsub (fdiv t.t6 count) (1/100))]

/-- Follows the spec's words for C7: the type with the largest deficit of
actual frequency below its target share. -/
def take_ship_stock_spec (ships : List ShipType) : ShipType :=
  match stock_deficits_spec ships with
  | hd :: tl => first_min hd tl
  | [] => ShipType.Ship1

/-- The concrete fleet refuting C7: five Ship1, three Ship2, two Ship4. -/
def c7_fleet : List ShipType :=
  [ShipType.Ship1, ShipType.Ship1, ShipType.Ship1, ShipType.Ship1, ShipType.Ship1,
   ShipType.Ship2, ShipType.Ship2, ShipType.Ship2, ShipType.Ship4, ShipType.Ship4]

/-- C7 (code bug): on the fleet [5 x Ship1, 3 x Ship2, 2 x Ship4] the source
recommends Ship4 — the Ship4 count lands in the Ship3 bucket and the Ship4
bucket counts Ship5s, so Ship4 looks absent — while the claimed
largest-deficit rule over the true frequencies picks Ship3 (frequency 0,
target 15%, the deficit furthest below target). -/
theorem c7_take_ship_stock_tally_bug :
    take_ship_stock c7_fleet = ShipType.Ship4 ∧
    take_ship_stock_spec c7_fleet = ShipType.Ship3 ∧
    ShipType.Ship4 ≠ ShipType.Ship3 := by
  refine ⟨?_, ?_, by decide⟩ <;>
    norm_num [take_ship_stock, take_ship_stock_spec, stock_deficits,
      stock_deficits_spec, tally_ships, tally_spec, c7_fleet, fdiv, fsub,
      first_min, fLt]

/-- C8 (counterexample): the frequency stock-taking is not skipped on an empty
fleet; every deficit is computed through a division of 0.0 by the zero fleet
count (`none`, modelling NaN = 0.0/0.0), so a division by zero does occur. -/
theorem c8_counterexample_division_by_zero_on_empty_fleet :
    stock_deficits [] =
      [(ShipType.Ship1, none), (ShipType.Ship2, none), (ShipType.Ship3, none),
       (ShipType.Ship4, none), (ShipType.Ship5, none), (ShipType.Ship6, none)] ∧
    fdiv 0 ((List.length ([] : List ShipType) : Rat)) = none := by
  constructor <;>
    norm_num [stock_deficits, tally_ships, fdiv, fsub]

/-- C8 (amended): take_ship_stock on the empty fleet still behaves safely: all
six deficits are the NaN of 0.0/0.0, f32::total_cmp ranks them equal, the
stable sort leaves the original order, and Ship1 is returned; no panic occurs
(Rust f32 division by zero is defined), so the spawner proceeds normally. -/
theorem c8_empty_fleet_returns_ship1 : take_ship_stock [] = ShipType.Ship1 := by
  norm_num [take_ship_stock, stock_deficits, tally_ships, fdiv, fsub, first_min, fLt]
